import Mathlib

/-!
# Seat-reservation and payment-orchestration engine: shallow embedding

Embedding of the hackload-kz/rorobotics ticket-booking backend (Rust/axum/sqlx).
The durable store (Postgres) is modelled as lists of rows, the ephemeral key
store (Redis) as the list of keys currently present, and each handler or
lifecycle function as a pure state transformer translated statement-by-statement
from the source.  Sources referenced below:
  - src/controllers/bookings.rs : select_seat, release_seat, cancel_booking, reset
  - src/controllers/payment.rs  : initiate_payment
  - src/services/payment.rs     : CircuitBreaker, PaymentGatewayClient handlers
  - src/cache.rs                : CacheService.reserve_seat, invalidate_seats
-/

namespace TicketSystem

/-- A row of the `seats` table: `id, event_id, status, booking_id, price`
(`row`/`number`/`category` never influence the verified operations and are
omitted; `price NUMERIC` holds non-negative ticket prices, modelled as `Nat`). -/
structure Seat where
  id : Nat
  eventId : Nat
  status : String
  bookingId : Option Nat
  price : Nat
deriving DecidableEq, Repr

/-- A row of the `bookings` table: `id, event_id, user_id, status`. -/
structure Booking where
  id : Nat
  eventId : Nat
  userId : Nat
  status : String
deriving DecidableEq, Repr

/-- A row of the `payment_transactions` table: `booking_id, transaction_id, status`. -/
structure PaymentTxn where
  bookingId : Nat
  transactionId : String
  status : String
deriving DecidableEq, Repr

/-- Combined durable-store and ephemeral-key-store state.  `redis` is the set of
keys currently present in the ephemeral key store (values and TTLs are not
needed by the claims; a key expiring by TTL is a separate event outside every
operation modelled here). -/
structure Sys where
  seats : List Seat
  bookings : List Booking
  txns : List PaymentTxn
  redis : List String
deriving DecidableEq, Repr

/-- The seat-lock key written by `CacheService::reserve_seat` (cache.rs:73):
`format!("seat:\x7b\x7d:reserved", seat_id)`. -/
def seatLockKey (sid : Nat) : String := "seat:" ++ toString sid ++ ":reserved"

/-- The key deleted by `PaymentGatewayClient::clear_redis_reservations`
(services/payment.rs:461): `format!("seat:\x7b\x7d", id)` — note the missing
`:reserved` suffix relative to `seatLockKey`. -/
def clearReservationKey (sid : Nat) : String := "seat:" ++ toString sid

/-- The per-event seats-cache key (cache.rs:91,151): `seats:` followed by the event id. -/
def seatsCacheKey (eid : Nat) : String := "seats:" ++ toString eid

/-- Redis `DEL key`. -/
def redisDel (k : String) (r : List String) : List String :=
  r.filter (fun x => x ≠ k)

/-- `CacheService::invalidate_seats` (cache.rs:90-95): `DEL seats:\x7beid\x7d`. -/
def invalidateSeats (eid : Nat) (r : List String) : List String :=
  redisDel (seatsCacheKey eid) r

/-- `PaymentGatewayClient::clear_redis_reservations` (services/payment.rs:453-464):
early-returns on an empty id list, otherwise issues one `DEL` with the keys
`seat:\x7bid\x7d` (without the `:reserved` suffix). -/
def clearRedisReservations (ids : List Nat) (r : List String) : List String :=
  if ids.isEmpty then r
  else r.filter (fun k => ¬ (ids.map clearReservationKey).contains k)

/-- The seat update of `process_successful_payment` (services/payment.rs:567):
`UPDATE seats SET status = 'SOLD' WHERE booking_id = $1 AND status = 'RESERVED'`. -/
def markSoldSeat (bid : Nat) (st : Seat) : Seat :=
  if st.bookingId = some bid ∧ st.status = "RESERVED" then
    { st with status := "SOLD" }
  else st

/-- The payment update of `process_successful_payment` (services/payment.rs:557):
`UPDATE payment_transactions SET status = 'completed' WHERE transaction_id = $1`. -/
def completeTxn (pid : String) (t : PaymentTxn) : PaymentTxn :=
  if t.transactionId = pid then { t with status := "completed" } else t

/-- The booking update of `process_successful_payment` (services/payment.rs:562):
`UPDATE bookings SET status = 'paid' WHERE id = $1`. -/
def payBooking (bid : Nat) (b : Booking) : Booking :=
  if b.id = bid then { b with status := "paid" } else b

/-- `PaymentGatewayClient::process_successful_payment` (services/payment.rs:546-576):
one transaction marking the payment `completed`, the booking `paid` and the
booking's `RESERVED` seats `SOLD` (returning their ids), followed post-commit by
`clear_redis_reservations` on the returned ids and `invalidate_seats`. -/
def processSuccessfulPayment (pid : String) (bid eid : Nat) (s : Sys) : Sys :=
  let txns := s.txns.map (completeTxn pid)
  let bookings := s.bookings.map (payBooking bid)
  let soldIds := (s.seats.filter (fun st =>
    st.bookingId = some bid ∧ st.status = "RESERVED")).map (·.id)
  let seats := s.seats.map (markSoldSeat bid)
  let redis := invalidateSeats eid (clearRedisReservations soldIds s.redis)
  { seats := seats, bookings := bookings, txns := txns, redis := redis }

/-- The seat update shared by `process_failed_payment` (services/payment.rs:594) and
`cleanup_expired_payment` (services/payment.rs:527):
`UPDATE seats SET status = 'AVAILABLE', booking_id = NULL WHERE booking_id = $1 AND status = 'RESERVED'`
— the written status is the literal `'AVAILABLE'`, not `'FREE'`. -/
def freeSeatAvailable (bid : Nat) (st : Seat) : Seat :=
  if st.bookingId = some bid ∧ st.status = "RESERVED" then
    { st with status := "AVAILABLE", bookingId := none }
  else st

/-- `PaymentGatewayClient::process_failed_payment` (services/payment.rs:578-608):
marks the payment `failed`, frees the booking's `RESERVED` seats (writing
`'AVAILABLE'`), deletes the booking row, then runs the post-commit cleanup. -/
def processFailedPayment (pid : String) (bid eid : Nat) (s : Sys) : Sys :=
  let txns := s.txns.map (fun t =>
    if t.transactionId = pid then { t with status := "failed" } else t)
  let freedIds := (s.seats.filter (fun st =>
    st.bookingId = some bid ∧ st.status = "RESERVED")).map (·.id)
  let seats := s.seats.map (freeSeatAvailable bid)
  let bookings := s.bookings.filter (fun b => b.id ≠ bid)
  let redis := invalidateSeats eid (clearRedisReservations freedIds s.redis)
  { seats := seats, bookings := bookings, txns := txns, redis := redis }

/-- `PaymentGatewayClient::cleanup_expired_payment` (services/payment.rs:510-544):
identical to `processFailedPayment` except the payment row is marked `expired`. -/
def cleanupExpiredPayment (pid : String) (bid eid : Nat) (s : Sys) : Sys :=
  let txns := s.txns.map (fun t =>
    if t.transactionId = pid then { t with status := "expired" } else t)
  let freedIds := (s.seats.filter (fun st =>
    st.bookingId = some bid ∧ st.status = "RESERVED")).map (·.id)
  let seats := s.seats.map (freeSeatAvailable bid)
  let bookings := s.bookings.filter (fun b => b.id ≠ bid)
  let redis := invalidateSeats eid (clearRedisReservations freedIds s.redis)
  { seats := seats, bookings := bookings, txns := txns, redis := redis }

/-- The booking lookup of `process_webhook_notification` (services/payment.rs:615-622):
`SELECT b.id, b.event_id FROM bookings b JOIN payment_transactions pt ON
pt.booking_id = b.id WHERE pt.transaction_id = $1`, `fetch_optional`. -/
def webhookLookup (pid : String) (s : Sys) : Option (Nat × Nat) :=
  match s.txns.find? (fun t => t.transactionId = pid) with
  | none => none
  | some t =>
    match s.bookings.find? (fun b => b.id = t.bookingId) with
    | none => none
    | some b => some (b.id, b.eventId)

/-- `PaymentGatewayClient::process_webhook_notification` (services/payment.rs:610-663).
Unknown payment ids are acknowledged without any state change.  The
`"AUTHORIZED"` branch contacts the payment gateway before deciding and, when the
confirmation cannot proceed, leaves the state unchanged; no claim below
exercises it, so it falls into the unchanged-state fallback together with
`"NEW"` and unknown statuses. -/
def processWebhookNotification (pid status : String) (s : Sys) : Sys :=
  match webhookLookup pid s with
  | none => s
  | some (bid, eid) =>
    if status = "CONFIRMED" then
      processSuccessfulPayment pid bid eid s
    else if status = "CANCELLED" ∨ status = "FAILED" ∨ status = "EXPIRED" ∨ status = "REFUNDED" then
      processFailedPayment pid bid eid s
    else s

/-- Outcome of the `cancel_booking` handler (controllers/bookings.rs:185-267),
up to the HTTP encoding: 400 for a non-positive id, 403 when the ownership
check fails, 500 on database errors (never taken in this failure-free model),
200 on success. -/
inductive CancelResult
  | badRequest
  | forbidden
  | dbError
  | ok
deriving DecidableEq, Repr

/-- The seat update of `cancel_booking` (controllers/bookings.rs:213-223):
`UPDATE seats SET status = 'FREE', booking_id = NULL WHERE booking_id = $1 AND status = 'RESERVED'`. -/
def freeSeatCancel (bid : Nat) (st : Seat) : Seat :=
  if st.bookingId = some bid ∧ st.status = "RESERVED" then
    { st with status := "FREE", bookingId := none }
  else st

/-- `booking_belongs_to_user` (controllers/bookings.rs:50-58):
`SELECT EXISTS(SELECT 1 FROM bookings WHERE id = $1 AND user_id = $2)` —
only existence and ownership of the row are checked, never its status. -/
def bookingBelongsToUser (bid uid : Nat) (s : Sys) : Bool :=
  s.bookings.any (fun b => b.id = bid ∧ b.userId = uid)

/-- `cancel_booking` (controllers/bookings.rs:185-267).  Validates the id and
ownership, then in one transaction frees the booking's `RESERVED` seats and
overwrites the booking status with `'cancelled'` (no status precondition).
Step 4 of the source (bookings.rs:252-260) builds a Redis pipeline of `DEL
seat:\x7bid\x7d:reserved` commands for the freed seats but never dispatches it,
so the lock keys are left untouched; only the seats-cache key is invalidated. -/
def cancelBooking (uid bid : Nat) (s : Sys) : CancelResult × Sys :=
  if bid = 0 then (CancelResult.badRequest, s)
  else if ¬ bookingBelongsToUser bid uid s then (CancelResult.forbidden, s)
  else
    match s.bookings.find? (fun b => b.id = bid) with
    | none => (CancelResult.dbError, s)
    | some b =>
      let eid := b.eventId
      let seats := s.seats.map (freeSeatCancel bid)
      let bookings := s.bookings.map (fun bb =>
        if bb.id = bid then { bb with status := "cancelled" } else bb)
      let redis := invalidateSeats eid s.redis
      (CancelResult.ok, { seats := seats, bookings := bookings, txns := s.txns, redis := redis })

/-- Outcome of the `select_seat` handler (controllers/bookings.rs:360-416):
400 for non-positive ids; 419 when the booking lookup fails, when the Redis
lock is already held, or when the conditional durable-store update matches no
row; 200 on success. -/
inductive SelectResult
  | badRequest
  | conflictNotFound
  | conflictLocked
  | conflictDsUpdate
  | ok
deriving DecidableEq, Repr

/-- The seat update of `select_seat` (controllers/bookings.rs:386-398):
`UPDATE seats SET status = 'RESERVED', booking_id = $1 WHERE id = $2 AND status = 'FREE'`. -/
def reserveSeatUpdate (bid sid : Nat) (st : Seat) : Seat :=
  if st.id = sid ∧ st.status = "FREE" then
    { st with status := "RESERVED", bookingId := some bid }
  else st

/-- `seat_event_id` (controllers/bookings.rs:75-82):
`SELECT event_id FROM seats WHERE id = $1`. -/
def seatEventId (sid : Nat) (s : Sys) : Option Nat :=
  (s.seats.find? (fun st => st.id = sid)).map (·.eventId)

/-- `select_seat` (controllers/bookings.rs:360-416) composed with
`CacheService::reserve_seat` (cache.rs:72-87).  Order of the atomic steps:
ownership check, Redis `SET seat:\x7bsid\x7d:reserved NX EX 300` (fails when the
key is present), conditional durable-store update observing `rows_affected`,
then on success cache invalidation and on failure `DEL` of the just-acquired
lock key. -/
def selectSeat (uid bid sid : Nat) (s : Sys) : SelectResult × Sys :=
  if bid = 0 ∨ sid = 0 then (SelectResult.badRequest, s)
  else if ¬ bookingBelongsToUser bid uid s then (SelectResult.conflictNotFound, s)
  else
    let key := seatLockKey sid
    if s.redis.contains key then (SelectResult.conflictLocked, s)
    else
      let redis1 := key :: s.redis
      if s.seats.any (fun st => st.id = sid ∧ st.status = "FREE") then
        let seats := s.seats.map (reserveSeatUpdate bid sid)
        let redis2 :=
          match seatEventId sid { s with seats := seats } with
          | some eid => invalidateSeats eid redis1
          | none => redis1
        (SelectResult.ok, { s with seats := seats, redis := redis2 })
      else
        (SelectResult.conflictDsUpdate, { s with redis := redisDel key redis1 })

/-- The seats joined onto a booking by the `initiate_payment` query
(controllers/payment.rs:85): `LEFT JOIN seats s ON s.booking_id = b.id AND
s.status = 'RESERVED'`. -/
def reservedSeats (bid : Nat) (s : Sys) : List Seat :=
  s.seats.filter (fun st => st.bookingId = some bid ∧ st.status = "RESERVED")

/-- Outcome of `initiate_payment` (controllers/payment.rs:65-136) up to the
point where the payment gateway is first contacted: either the request is
rejected with an HTTP status before any gateway call and any durable-store
write, or the handler proceeds to call `create_payment` with the given amount
in minor units. -/
inductive InitiateOutcome
  | reject (httpStatus : Nat)
  | callGateway (amountMinor : Nat)
deriving DecidableEq, Repr

/-- The pre-gateway phase of `initiate_payment` (controllers/payment.rs:70-113).
The booking query (lines 76-98) groups per booking and applies
`HAVING COUNT(s.id) > 0` over the `RESERVED`-seats join, so a booking with no
`RESERVED` seats yields no row: `fetch_optional` returns `None` and the handler
answers 404 `"Booking not found or empty"` (line 101).  An owned booking with
reserved seats of zero total price is rejected 400 (line 104); otherwise the
handler proceeds to the gateway with `total_price * 100` minor units
(line 111).  The joined `events_archive` and `users` rows are assumed present. -/
def initiatePaymentPreGateway (uid bid : Nat) (s : Sys) : InitiateOutcome :=
  if bid = 0 then InitiateOutcome.reject 400
  else
    match s.bookings.find? (fun b => b.id = bid ∧ b.userId = uid) with
    | none => InitiateOutcome.reject 404
    | some _ =>
      let rs := reservedSeats bid s
      if rs.length = 0 then InitiateOutcome.reject 404
      else
        let total := (rs.map (·.price)).sum
        if total = 0 then InitiateOutcome.reject 400
        else InitiateOutcome.callGateway (total * 100)

/-- The three circuit-breaker states (services/payment.rs:29-39). -/
inductive CircuitState
  | Closed
  | Open
  | HalfOpen
deriving DecidableEq, Repr

/-- `CircuitBreaker` (services/payment.rs:42-54): current state, consecutive
failure counter, the stored `last_failure_time` (a `u64` of seconds), the
failure threshold and the open-state timeout in seconds. -/
structure CircuitBreaker where
  state : CircuitState
  failureCount : Nat
  lastFailureTime : Nat
  failureThreshold : Nat
  timeoutSecs : Nat
deriving DecidableEq, Repr

/-- `CircuitBreaker::new` (services/payment.rs:58-66). -/
def CircuitBreaker.new (threshold timeoutSecs : Nat) : CircuitBreaker :=
  { state := CircuitState.Closed, failureCount := 0, lastFailureTime := 0,
    failureThreshold := threshold, timeoutSecs := timeoutSecs }

/-- The value of the expression `Instant::now().elapsed().as_secs()` used both as
"now" in `can_execute` (services/payment.rs:77) and as the stored failure time
in `record_failure` (services/payment.rs:119).  `Instant::now().elapsed()`
measures the monotonic-clock duration between creating the `Instant` and the
immediately following `elapsed()` call in the same expression — well under one
second — so `as_secs()` truncates it to `0`.  No wall-clock time enters the
computation. -/
def instantNowElapsedSecs : Nat := 0

/-- `CircuitBreaker::can_execute` (services/payment.rs:69-94), returning the
boolean decision together with the (possibly updated) breaker.  In `Open` the
code compares `now - last_failure` (`u64` arithmetic; here both operands are
`instantNowElapsedSecs`-derived, so the subtraction never underflows) against
`timeout_duration.as_secs()` and transitions to `HalfOpen` when it is no
smaller. -/
def canExecute (cb : CircuitBreaker) : Bool × CircuitBreaker :=
  match cb.state with
  | CircuitState.Closed => (true, cb)
  | CircuitState.Open =>
    let now := instantNowElapsedSecs
    if cb.timeoutSecs ≤ now - cb.lastFailureTime then
      (true, { cb with state := CircuitState.HalfOpen })
    else (false, cb)
  | CircuitState.HalfOpen => (true, cb)

/-- `CircuitBreaker::record_success` (services/payment.rs:97-113). -/
def recordSuccess (cb : CircuitBreaker) : CircuitBreaker :=
  match cb.state with
  | CircuitState.HalfOpen => { cb with state := CircuitState.Closed, failureCount := 0 }
  | CircuitState.Closed => { cb with failureCount := 0 }
  | CircuitState.Open => cb

/-- `CircuitBreaker::record_failure` (services/payment.rs:116-141): increments
the failure counter, stores `Instant::now().elapsed().as_secs()` as the failure
time, then opens the breaker from `Closed` when the counter reaches the
threshold and from `HalfOpen` unconditionally. -/
def recordFailure (cb : CircuitBreaker) : CircuitBreaker :=
  let fc := cb.failureCount + 1
  let cb1 := { cb with failureCount := fc, lastFailureTime := instantNowElapsedSecs }
  match cb1.state with
  | CircuitState.Closed =>
    if cb1.failureThreshold ≤ fc then { cb1 with state := CircuitState.Open } else cb1
  | CircuitState.HalfOpen => { cb1 with state := CircuitState.Open }
  | CircuitState.Open => cb1

/-- The circuit-breaker part of `PaymentGatewayClient::from_config`
(services/payment.rs:272-289): every call constructs a brand-new
`CircuitBreaker::new(failure_threshold, timeout_seconds)`; nothing of a
previously constructed client survives into it.  The HTTP handlers in
controllers/payment.rs (lines 108, 228, 270, 324, 367) each call `from_config`
per request. -/
def fromConfigBreaker (threshold timeoutSecs : Nat) : CircuitBreaker :=
  CircuitBreaker.new threshold timeoutSecs

/-- One `initiate_payment` HTTP request whose gateway call fails with a
transport error, as executed by controllers/payment.rs:108 together with
`execute_with_circuit_breaker` (services/payment.rs:292-315): the handler
constructs a fresh client (and breaker) via `from_config`; if `can_execute`
denies, the handler answers 503 without sending anything; otherwise the request
is sent (here: fails in transport), `record_failure` runs, and the handler
answers 502.  Returns (a gateway request was sent, HTTP status, the breaker at
the end of the request — dropped with the client when the request completes). -/
def initiatePaymentTransportError (threshold timeoutSecs : Nat) :
    Bool × Nat × CircuitBreaker :=
  let cb := fromConfigBreaker threshold timeoutSecs
  match canExecute cb with
  | (false, cb1) => (false, 503, cb1)
  | (true, cb1) => (true, 502, recordFailure cb1)

/-!
## Concurrent `select_seat` contention model

`n` contenders (distinct users, each with their own booking, identified with
their index) race `select_seat` for one seat that is `FREE` in the durable
store.  Following the code's suspension points, the atomic steps are exactly
the three externally visible operations of controllers/bookings.rs:360-416:
the Redis `SET ... NX` of `reserve_seat` (cache.rs:77-84), the conditional
durable-store `UPDATE ... WHERE status = 'FREE'` (bookings.rs:386-398), and the
unwinding `DEL` of the lock key when the update matched no row
(bookings.rs:409-413).
-/

/-- Program counter of one contender inside `select_seat`: before the Redis
`SET NX`; holding the lock before the durable-store update; about to `DEL` the
lock after a missed update; returned 200; returned 419. -/
inductive Pc
  | atLock
  | gotLock
  | unwind
  | doneOk
  | doneConflict
deriving DecidableEq, Repr

/-- Shared state of the race: the Redis lock key's holder (if present), the
seat's durable status, the seat's `booking_id` (the winner's index stands for
the winner's booking), and each contender's program counter. -/
structure RaceState (n : Nat) where
  lock : Option (Fin n)
  seatStatus : String
  seatBooking : Option (Fin n)
  pc : Fin n → Pc

/-- The interleaving steps of the concurrent `select_seat` calls. -/
inductive RaceStep (n : Nat) : RaceState n → RaceState n → Prop
  | lockAcquire (i : Fin n) (s : RaceState n) :
      s.pc i = Pc.atLock → s.lock = none →
      RaceStep n s { s with lock := some i, pc := Function.update s.pc i Pc.gotLock }
  | lockBusy (i j : Fin n) (s : RaceState n) :
      s.pc i = Pc.atLock → s.lock = some j →
      RaceStep n s { s with pc := Function.update s.pc i Pc.doneConflict }
  | updateHit (i : Fin n) (s : RaceState n) :
      s.pc i = Pc.gotLock → s.seatStatus = "FREE" →
      RaceStep n s { s with seatStatus := "RESERVED", seatBooking := some i,
                            pc := Function.update s.pc i Pc.doneOk }
  | updateMiss (i : Fin n) (s : RaceState n) :
      s.pc i = Pc.gotLock → s.seatStatus ≠ "FREE" →
      RaceStep n s { s with pc := Function.update s.pc i Pc.unwind }
  | unlockDel (i : Fin n) (s : RaceState n) :
      s.pc i = Pc.unwind →
      RaceStep n s { s with lock := none, pc := Function.update s.pc i Pc.doneConflict }

/-- Initial state: no lock key in Redis, the seat `FREE` and unowned in the
durable store, every contender about to attempt the `SET NX`. -/
def raceInit (n : Nat) : RaceState n :=
  { lock := none, seatStatus := "FREE", seatBooking := none, pc := fun _ => Pc.atLock }

/-- States reachable from `raceInit` by interleaving the atomic steps. -/
inductive RaceReach (n : Nat) : RaceState n → Prop
  | init : RaceReach n (raceInit n)
  | step {s t : RaceState n} : RaceReach n s → RaceStep n s t → RaceReach n t

/-- The inductive invariant: while no one holds the lock the seat is untouched
and nobody has progressed; once contender `w` holds the lock, everyone else is
still waiting or has lost at the Redis gate, and `w` is either between the gate
and the update (seat still `FREE`) or has won (seat `RESERVED` for `w`). -/
def RaceInv {n : Nat} (s : RaceState n) : Prop :=
  (s.lock = none → s.seatStatus = "FREE" ∧ s.seatBooking = none ∧ ∀ i, s.pc i = Pc.atLock) ∧
  (∀ w, s.lock = some w →
    (∀ j, j ≠ w → s.pc j = Pc.atLock ∨ s.pc j = Pc.doneConflict) ∧
    ((s.pc w = Pc.gotLock ∧ s.seatStatus = "FREE" ∧ s.seatBooking = none) ∨
     (s.pc w = Pc.doneOk ∧ s.seatStatus = "RESERVED" ∧ s.seatBooking = some w)))

/-- Intermediate state of the two-contender witness run: contender 0 has
acquired the Redis lock. -/
def raceA : RaceState 2 :=
  { raceInit 2 with
    lock := some 0
    pc := Function.update (raceInit 2).pc 0 Pc.gotLock }

/-- Contender 0's conditional durable-store update has succeeded. -/
def raceB : RaceState 2 :=
  { raceA with
    seatStatus := "RESERVED"
    seatBooking := some 0
    pc := Function.update raceA.pc 0 Pc.doneOk }

/-- Contender 1 has failed at the Redis gate: both contenders have returned. -/
def raceFinal : RaceState 2 :=
  { raceB with pc := Function.update raceB.pc 1 Pc.doneConflict }

/-- A booking in `pending_payment` with one `RESERVED` seat and a `pending`
payment transaction. -/
def sPendingPayment : Sys :=
  { seats := [{ id := 8, eventId := 3, status := "RESERVED", bookingId := some 1, price := 100 }]
    bookings := [{ id := 1, eventId := 3, userId := 1, status := "pending_payment" }]
    txns := [{ bookingId := 1, transactionId := "p2", status := "pending" }]
    redis := [] }

/-- A booking in `pending_payment` whose payment `p1` is pending: seat 42 is
`RESERVED`, its lock key and the event-7 seats-cache key are in Redis. -/
def sWebhook : Sys :=
  { seats := [{ id := 42, eventId := 7, status := "RESERVED", bookingId := some 1, price := 100 }]
    bookings := [{ id := 1, eventId := 7, userId := 1, status := "pending_payment" }]
    txns := [{ bookingId := 1, transactionId := "p1", status := "pending" }]
    redis := [seatLockKey 42, seatsCacheKey 7] }

/-- The state after the `CONFIRMED` webhook for `p1` is processed. -/
def sWebhookAfter : Sys := processWebhookNotification "p1" "CONFIRMED" sWebhook

/-- The breaker after five consecutive `record_failure` calls starting from
`CircuitBreaker::new(5, 60)`. -/
def cbAfterFiveFailures : CircuitBreaker :=
  recordFailure (recordFailure (recordFailure (recordFailure (recordFailure
    (CircuitBreaker.new 5 60)))))

/-- A `created` booking of user 1 holding `RESERVED` seat 5, whose Redis lock
key is present. -/
def sCancelLock : Sys :=
  { seats := [{ id := 5, eventId := 2, status := "RESERVED", bookingId := some 1, price := 100 }]
    bookings := [{ id := 1, eventId := 2, userId := 1, status := "created" }]
    txns := []
    redis := [seatLockKey 5] }

/-- The state after the owner cancels booking 1. -/
def sCancelLockAfter : Sys := (cancelBooking 1 1 sCancelLock).2

/-- A `paid` booking of user 1 with one `SOLD` seat. -/
def sPaidBooking : Sys :=
  { seats := [{ id := 7, eventId := 1, status := "SOLD", bookingId := some 1, price := 100 }]
    bookings := [{ id := 1, eventId := 1, userId := 1, status := "paid" }]
    txns := []
    redis := [] }

/-- A `cancelled` booking of user 9 and a `FREE` seat with no Redis lock. -/
def sCancelledBooking : Sys :=
  { seats := [{ id := 11, eventId := 4, status := "FREE", bookingId := none, price := 50 }]
    bookings := [{ id := 2, eventId := 4, userId := 9, status := "cancelled" }]
    txns := []
    redis := [] }

lemma raceInv_init (n : Nat) : RaceInv (raceInit n) := by
  refine ⟨fun _ => ⟨rfl, rfl, fun _ => rfl⟩, fun w hw => ?_⟩
  exact absurd hw (by simp [raceInit])

lemma raceInv_step {n : Nat} {s t : RaceState n} (hinv : RaceInv s)
    (hstep : RaceStep n s t) : RaceInv t := by
  obtain ⟨hnone, hsome⟩ := hinv
  cases hstep with
  | lockAcquire i s hpc hlk =>
    obtain ⟨hfree, hbook, hall⟩ := hnone hlk
    constructor
    · intro h
      exact Option.noConfusion h
    · intro w hw
      obtain rfl : i = w := by injection hw
      dsimp only
      refine ⟨fun j hj => ?_, Or.inl ⟨?_, hfree, hbook⟩⟩
      · rw [Function.update_noteq hj]
        exact Or.inl (hall j)
      · exact Function.update_same i Pc.gotLock s.pc
  | lockBusy i j s hpc hlk =>
    obtain ⟨hoth, hhold⟩ := hsome j hlk
    have hij : i ≠ j := by
      intro h
      subst h
      rcases hhold with ⟨hg, _, _⟩ | ⟨hg, _, _⟩ <;> rw [hpc] at hg <;> exact Pc.noConfusion hg
    constructor
    · intro h
      have h' : s.lock = none := h
      rw [hlk] at h'
      exact Option.noConfusion h'
    · intro w hw
      have hw' : s.lock = some w := hw
      rw [hlk] at hw'
      obtain rfl : j = w := by injection hw'
      dsimp only
      constructor
      · intro k hk
        by_cases hki : k = i
        · subst hki
          rw [Function.update_same]
          exact Or.inr rfl
        · rw [Function.update_noteq hki]
          exact hoth k hk
      · rw [Function.update_noteq (Ne.symm hij)]
        exact hhold
  | updateHit i s hpc hfree =>
    cases hlkc : s.lock with
    | none =>
      obtain ⟨_, _, hall⟩ := hnone hlkc
      rw [hall i] at hpc
      exact Pc.noConfusion hpc
    | some w =>
      obtain ⟨hoth, hhold⟩ := hsome w hlkc
      obtain rfl : i = w := by
        by_contra hne
        rcases hoth i hne with h | h <;> rw [hpc] at h <;> exact Pc.noConfusion h
      constructor
      · intro h
        exact Option.noConfusion h
      · intro w' hw'
        obtain rfl : i = w' := by injection hw'
        dsimp only
        refine ⟨fun j hj => ?_, Or.inr ⟨?_, rfl, rfl⟩⟩
        · rw [Function.update_noteq hj]
          exact hoth j hj
        · exact Function.update_same i Pc.doneOk s.pc
  | updateMiss i s hpc hne =>
    cases hlkc : s.lock with
    | none =>
      obtain ⟨hfree, _, _⟩ := hnone hlkc
      exact absurd hfree hne
    | some w =>
      obtain ⟨hoth, hhold⟩ := hsome w hlkc
      obtain rfl : i = w := by
        by_contra hiw
        rcases hoth i hiw with h | h <;> rw [hpc] at h <;> exact Pc.noConfusion h
      rcases hhold with ⟨_, hfree, _⟩ | ⟨hg, _, _⟩
      · exact absurd hfree hne
      · rw [hpc] at hg
        exact Pc.noConfusion hg
  | unlockDel i s hpc =>
    cases hlkc : s.lock with
    | none =>
      obtain ⟨_, _, hall⟩ := hnone hlkc
      rw [hall i] at hpc
      exact Pc.noConfusion hpc
    | some w =>
      obtain ⟨hoth, hhold⟩ := hsome w hlkc
      by_cases hiw : i = w
      · subst hiw
        rcases hhold with ⟨hg, _, _⟩ | ⟨hg, _, _⟩ <;> rw [hpc] at hg <;> exact Pc.noConfusion hg
      · rcases hoth i hiw with h | h <;> rw [hpc] at h <;> exact Pc.noConfusion h

lemma raceInv_reach {n : Nat} {s : RaceState n} (h : RaceReach n s) : RaceInv s := by
  induction h with
  | init => exact raceInv_init n
  | step _ hstep ih => exact raceInv_step ih hstep

/-!
## Theorems for the claims
-/

/-- C1: for any sequence of concurrent `select_seat` calls on the same seat by
distinct users while the seat is `FREE` in the durable store, once every call
has returned, exactly one returned ok and every other returned conflict; the
durable store holds the seat `RESERVED` with the winner's booking id, and
exactly the winner's `seat:\x7bseat_id\x7d:reserved` lock key exists.  Stated as
a consequence of the inductive invariant of the step relation whose atomic
steps are the Redis `SET NX`, the conditional `UPDATE ... WHERE status='FREE'`,
and the unwinding `DEL`. -/
theorem select_seat_single_winner {n : Nat} (s : RaceState n) (hn : 0 < n)
    (hr : RaceReach n s)
    (hdone : ∀ i, s.pc i = Pc.doneOk ∨ s.pc i = Pc.doneConflict) :
    ∃ w : Fin n, s.pc w = Pc.doneOk ∧ (∀ j, j ≠ w → s.pc j = Pc.doneConflict) ∧
      s.seatStatus = "RESERVED" ∧ s.seatBooking = some w ∧ s.lock = some w := by
  obtain ⟨hnone, hsome⟩ := raceInv_reach hr
  cases hlk : s.lock with
  | none =>
    obtain ⟨_, _, hall⟩ := hnone hlk
    rcases hdone ⟨0, hn⟩ with h | h <;> rw [hall ⟨0, hn⟩] at h <;> exact Pc.noConfusion h
  | some w =>
    obtain ⟨hoth, hhold⟩ := hsome w hlk
    rcases hhold with ⟨hg, _, _⟩ | ⟨hok, hres, hbook⟩
    · rcases hdone w with h | h <;> rw [hg] at h <;> exact Pc.noConfusion h
    · refine ⟨w, hok, fun j hj => ?_, hres, hbook, rfl⟩
      rcases hoth j hj with h | h
      · rcases hdone j with h' | h' <;> rw [h] at h' <;> exact Pc.noConfusion h'
      · exact h

lemma raceFinal_reach : RaceReach 2 raceFinal :=
  RaceReach.step
    (RaceReach.step
      (RaceReach.step RaceReach.init
        (RaceStep.lockAcquire 0 (raceInit 2) rfl rfl))
      (RaceStep.updateHit 0 raceA (by decide) rfl))
    (RaceStep.lockBusy 1 0 raceB (by decide) rfl)

/-- Witness for C1: the concrete two-contender run in which contender 0 wins
and contender 1 loses at the Redis gate. -/
theorem select_seat_single_winner_witness :
    ∃ w : Fin 2, raceFinal.pc w = Pc.doneOk ∧
      (∀ j, j ≠ w → raceFinal.pc j = Pc.doneConflict) ∧
      raceFinal.seatStatus = "RESERVED" ∧ raceFinal.seatBooking = some w ∧
      raceFinal.lock = some w :=
  select_seat_single_winner raceFinal (by decide) raceFinal_reach (by decide)

/-- C2: the claim says every status ever written to a seat keeps it inside
`FREE / RESERVED / SOLD`.  The code violates it: `process_failed_payment`
(services/payment.rs:594) and `cleanup_expired_payment` (services/payment.rs:527)
write the literal `'AVAILABLE'` when freeing a `RESERVED` seat, a value outside
the status set — after which `select_seat`'s `WHERE status = 'FREE'` can never
match the seat again. -/
theorem failed_payment_writes_available :
    ((processFailedPayment "p2" 1 3 sPendingPayment).seats.map (·.status) = ["AVAILABLE"]) ∧
    ((cleanupExpiredPayment "p2" 1 3 sPendingPayment).seats.map (·.status) = ["AVAILABLE"]) ∧
    ("AVAILABLE" ≠ "FREE" ∧ "AVAILABLE" ≠ "RESERVED" ∧ "AVAILABLE" ≠ "SOLD") := by
  decide

/-- C3: processing a `CONFIRMED` webhook does mark the booking `paid`, the
seat `SOLD` and the transaction `completed`, but the claim's last conjunct
fails: the post-commit cleanup (`clear_redis_reservations`,
services/payment.rs:461) deletes the key `seat:42` while the lock key written
by `reserve_seat` (cache.rs:73) is `seat:42:reserved`, so the lock key is still
present afterwards (it only disappears by TTL). -/
theorem webhook_confirmed_lock_key_survives :
    sWebhookAfter.bookings.map (·.status) = ["paid"] ∧
    sWebhookAfter.seats.map (·.status) = ["SOLD"] ∧
    sWebhookAfter.txns.map (·.status) = ["completed"] ∧
    seatLockKey 42 ∈ sWebhookAfter.redis ∧
    clearReservationKey 42 ≠ seatLockKey 42 := by
  decide

/-- C4: with `failure_threshold = 5` the breaker does reach `Open` after five
consecutive failures (part (a) of the claim), but part (b) fails: because both
the stored failure time and "now" are `Instant::now().elapsed().as_secs()`
(always `0`), `can_execute` in `Open` compares `0 - 0 ≥ 60`, returns `false`
and never moves to `HalfOpen`, no matter how much wall-clock time has passed
since the last failure. -/
theorem circuit_breaker_open_never_half_opens :
    cbAfterFiveFailures.state = CircuitState.Open ∧
    (canExecute cbAfterFiveFailures).1 = false ∧
    ((canExecute cbAfterFiveFailures).2).state = CircuitState.Open := by
  decide

/-- C5: the claim says circuit-breaker state is process-wide, so the sixth
`initiate_payment` after five transport failures answers 503 without reaching
the gateway.  In the code each HTTP request constructs its own
`PaymentGatewayClient` (controllers/payment.rs:108) whose `from_config` builds
a brand-new `CircuitBreaker` (services/payment.rs:273-276); no failure count
survives between requests, so every request — the sixth included — starts from
`Closed`, sends a gateway request, and on transport error answers 502. -/
theorem initiate_payment_breaker_not_shared :
    (initiatePaymentTransportError 5 60).1 = true ∧
    (initiatePaymentTransportError 5 60).2.1 = 502 ∧
    fromConfigBreaker 5 60 = CircuitBreaker.new 5 60 := by
  decide

/-- C7: cancelling before payment does free the seat (`FREE`, `booking_id`
null) and mark the booking `cancelled`, but the claim's lock-deletion conjunct
fails: step 4 of `cancel_booking` (controllers/bookings.rs:254-260) builds the
Redis pipeline of `DEL seat:\x7bid\x7d:reserved` commands and never dispatches
it, so the lock key is still present after the call and only the 300 s TTL
removes it. -/
theorem cancel_booking_lock_key_survives :
    (cancelBooking 1 1 sCancelLock).1 = CancelResult.ok ∧
    sCancelLockAfter.seats.map (fun st => (st.status, st.bookingId)) = [("FREE", none)] ∧
    sCancelLockAfter.bookings.map (·.status) = ["cancelled"] ∧
    seatLockKey 5 ∈ sCancelLockAfter.redis := by
  decide

/-- Counterexample to C6: on a `paid` booking, the owner's `cancel_booking`
does not return a conflict and the booking does not stay `paid` — the call
succeeds (200) and overwrites the status with `'cancelled'`
(controllers/bookings.rs:235 runs unconditionally; no status is ever checked). -/
theorem cancel_booking_paid_not_conflict :
    (cancelBooking 1 1 sPaidBooking).1 = CancelResult.ok ∧
    CancelResult.ok ≠ CancelResult.badRequest ∧
    CancelResult.ok ≠ CancelResult.forbidden ∧
    CancelResult.ok ≠ CancelResult.dbError ∧
    (cancelBooking 1 1 sPaidBooking).2.bookings.map (·.status) = ["cancelled"] := by
  decide

/-- C6 (amended): for every booking in status `'paid'` owned by the caller,
`cancel_booking` succeeds with 200, overwrites the booking status with
`'cancelled'`, and leaves the booking's `SOLD` seats unchanged (only
`RESERVED` seats are freed). -/
theorem cancel_booking_paid_succeeds (s : Sys) (uid bid : Nat) (b : Booking)
    (hbid : bid ≠ 0) (hmem : b ∈ s.bookings) (hid : b.id = bid)
    (huser : b.userId = uid) (_hpaid : b.status = "paid") :
    (cancelBooking uid bid s).1 = CancelResult.ok ∧
    (∀ bb ∈ (cancelBooking uid bid s).2.bookings, bb.id = bid → bb.status = "cancelled") ∧
    (∀ st ∈ s.seats, st.status = "SOLD" → st ∈ (cancelBooking uid bid s).2.seats) := by
  have hbel : bookingBelongsToUser bid uid s = true := by
    unfold bookingBelongsToUser
    rw [List.any_eq_true]
    exact ⟨b, hmem, by simp [hid, huser]⟩
  cases hfind : s.bookings.find? (fun bb => bb.id = bid) with
  | none =>
    have := List.find?_eq_none.mp hfind b hmem
    simp [hid] at this
  | some b' =>
    unfold cancelBooking
    rw [if_neg hbid, if_neg (by simp [hbel]), hfind]
    refine ⟨rfl, fun bb hbb hbbid => ?_, fun st hst hsold => ?_⟩
    · obtain ⟨bb0, hbb0, rfl⟩ := List.mem_map.mp hbb
      by_cases h0 : bb0.id = bid
      · simp [h0]
      · rw [if_neg h0] at hbbid
        exact absurd hbbid h0
    · refine List.mem_map.mpr ⟨st, hst, ?_⟩
      unfold freeSeatCancel
      rw [if_neg]
      intro hc
      rw [hsold] at hc
      exact absurd hc.2 (by decide)

/-- Witness for C6 (amended): the concrete `paid` booking of `sPaidBooking`. -/
theorem cancel_booking_paid_succeeds_witness :
    (cancelBooking 1 1 sPaidBooking).1 = CancelResult.ok ∧
    (∀ bb ∈ (cancelBooking 1 1 sPaidBooking).2.bookings, bb.id = 1 → bb.status = "cancelled") ∧
    (∀ st ∈ sPaidBooking.seats, st.status = "SOLD" →
      st ∈ (cancelBooking 1 1 sPaidBooking).2.seats) :=
  cancel_booking_paid_succeeds sPaidBooking 1 1
    { id := 1, eventId := 1, userId := 1, status := "paid" }
    (by decide) (by decide) rfl rfl rfl

/-- Counterexample to C9: for an owned booking with no `RESERVED` seat (here:
its only seat is already `SOLD`), `initiate_payment` rejects with HTTP 404
("Booking not found or empty", controllers/payment.rs:101), not with a
conflict status 409/419 as claimed: the `HAVING COUNT(s.id) > 0` clause makes
the booking query return no row. -/
theorem initiate_payment_no_reserved_not_conflict :
    initiatePaymentPreGateway 1 1 sPaidBooking = InitiateOutcome.reject 404 ∧
    (404 : Nat) ≠ 409 ∧ (404 : Nat) ≠ 419 := by
  decide

/-- C9 (amended): for every booking that exists and belongs to the caller but
has no seat in status `RESERVED`, `initiate_payment` rejects with HTTP 404
before contacting the payment gateway and before any durable-store write
(the `InitiateOutcome.reject` branch is decided strictly before the gateway
call and the transaction of controllers/payment.rs:162-198). -/
theorem initiate_payment_no_reserved_rejects_404 (s : Sys) (uid bid : Nat) (b : Booking)
    (hbid : bid ≠ 0) (_hmem : b ∈ s.bookings) (_hid : b.id = bid)
    (_huser : b.userId = uid) (hnores : reservedSeats bid s = []) :
    initiatePaymentPreGateway uid bid s = InitiateOutcome.reject 404 := by
  unfold initiatePaymentPreGateway
  rw [if_neg hbid]
  cases hfind : s.bookings.find? (fun bb => bb.id = bid ∧ bb.userId = uid) with
  | none => rfl
  | some b' =>
    rw [hnores]
    rfl

/-- Witness for C9 (amended): the `paid` booking of `sPaidBooking`, whose only
seat is `SOLD`. -/
theorem initiate_payment_no_reserved_rejects_404_witness :
    initiatePaymentPreGateway 1 1 sPaidBooking = InitiateOutcome.reject 404 :=
  initiate_payment_no_reserved_rejects_404 sPaidBooking 1 1
    { id := 1, eventId := 1, userId := 1, status := "paid" }
    (by decide) (by decide) rfl rfl (by decide)

/-- C10: `select_seat` checks only that the booking row exists and belongs to
the caller (`booking_belongs_to_user`, controllers/bookings.rs:50-58) — the
booking's status is never read — so for any owned booking (its status may be
`'cancelled'` or `'paid'`), if the Redis lock is acquired and the seat is
`FREE` in the durable store, the call succeeds and attaches the seat to that
booking. -/
theorem select_seat_ignores_booking_status (s : Sys) (uid bid sid : Nat)
    (b : Booking) (st : Seat)
    (hbid : bid ≠ 0) (hsid : sid ≠ 0)
    (hmem : b ∈ s.bookings) (hid : b.id = bid) (huser : b.userId = uid)
    (hnolock : ¬ s.redis.contains (seatLockKey sid))
    (hstmem : st ∈ s.seats) (hstid : st.id = sid) (hstfree : st.status = "FREE") :
    (selectSeat uid bid sid s).1 = SelectResult.ok ∧
    { st with status := "RESERVED", bookingId := some bid } ∈
      (selectSeat uid bid sid s).2.seats := by
  have hbel : bookingBelongsToUser bid uid s = true := by
    unfold bookingBelongsToUser
    rw [List.any_eq_true]
    exact ⟨b, hmem, by simp [hid, huser]⟩
  have hany : (s.seats.any (fun x => x.id = sid ∧ x.status = "FREE")) = true := by
    rw [List.any_eq_true]
    exact ⟨st, hstmem, by simp [hstid, hstfree]⟩
  unfold selectSeat
  rw [if_neg (by rintro (h | h) <;> [exact hbid h; exact hsid h]),
    if_neg (by simp [hbel]), if_neg hnolock, if_pos hany]
  refine ⟨rfl, ?_⟩
  refine List.mem_map.mpr ⟨st, hstmem, ?_⟩
  unfold reserveSeatUpdate
  rw [if_pos ⟨hstid, hstfree⟩]

/-- Witness for C10: user 9 selects the `FREE` seat 11 into the `cancelled`
booking 2 and succeeds. -/
theorem select_seat_ignores_booking_status_witness :
    (selectSeat 9 2 11 sCancelledBooking).1 = SelectResult.ok ∧
    { id := 11, eventId := 4, status := "RESERVED", bookingId := some 2, price := 50 } ∈
      (selectSeat 9 2 11 sCancelledBooking).2.seats :=
  select_seat_ignores_booking_status sCancelledBooking 9 2 11
    { id := 2, eventId := 4, userId := 9, status := "cancelled" }
    { id := 11, eventId := 4, status := "FREE", bookingId := none, price := 50 }
    (by decide) (by decide) (by decide) rfl rfl (by decide) (by decide) rfl rfl

lemma map_self_idem {α : Type} (g : α → α) (hg : ∀ x, g (g x) = g x) (l : List α) :
    (l.map g).map g = l.map g := by
  induction l with
  | nil => rfl
  | cons a t ih => simp only [List.map_cons, hg a, ih]

lemma filter_self_idem {α : Type} (p : α → Bool) (l : List α) :
    (l.filter p).filter p = l.filter p := by
  induction l with
  | nil => rfl
  | cons a t ih => cases h : p a <;> simp [List.filter_cons, h, ih]

lemma completeTxn_idem (pid : String) (t : PaymentTxn) :
    completeTxn pid (completeTxn pid t) = completeTxn pid t := by
  obtain ⟨tb, tt, ts⟩ := t
  by_cases h : tt = pid <;> simp [completeTxn, h]

lemma completeTxn_transactionId (pid : String) (t : PaymentTxn) :
    (completeTxn pid t).transactionId = t.transactionId := by
  obtain ⟨tb, tt, ts⟩ := t
  by_cases h : tt = pid <;> simp [completeTxn, h]

lemma completeTxn_bookingId (pid : String) (t : PaymentTxn) :
    (completeTxn pid t).bookingId = t.bookingId := by
  obtain ⟨tb, tt, ts⟩ := t
  by_cases h : tt = pid <;> simp [completeTxn, h]

lemma payBooking_idem (bid : Nat) (b : Booking) :
    payBooking bid (payBooking bid b) = payBooking bid b := by
  obtain ⟨bi, be, bu, bs⟩ := b
  by_cases h : bi = bid <;> simp [payBooking, h]

lemma payBooking_id (bid : Nat) (b : Booking) : (payBooking bid b).id = b.id := by
  obtain ⟨bi, be, bu, bs⟩ := b
  by_cases h : bi = bid <;> simp [payBooking, h]

lemma payBooking_eventId (bid : Nat) (b : Booking) :
    (payBooking bid b).eventId = b.eventId := by
  obtain ⟨bi, be, bu, bs⟩ := b
  by_cases h : bi = bid <;> simp [payBooking, h]

lemma markSoldSeat_idem (bid : Nat) (st : Seat) :
    markSoldSeat bid (markSoldSeat bid st) = markSoldSeat bid st := by
  obtain ⟨si, se, ss, sb, sp⟩ := st
  by_cases h : sb = some bid ∧ ss = "RESERVED"
  · simp [markSoldSeat, h]
  · simp [markSoldSeat, h]

lemma markSoldSeat_not_reserved (bid : Nat) (st : Seat) :
    ¬ ((markSoldSeat bid st).bookingId = some bid ∧
       (markSoldSeat bid st).status = "RESERVED") := by
  obtain ⟨si, se, ss, sb, sp⟩ := st
  by_cases h : sb = some bid ∧ ss = "RESERVED"
  · simp [markSoldSeat, h]
  · simp [markSoldSeat, h]

lemma clearRedisReservations_nil (r : List String) :
    clearRedisReservations [] r = r := rfl

lemma invalidateSeats_idem (eid : Nat) (r : List String) :
    invalidateSeats eid (invalidateSeats eid r) = invalidateSeats eid r := by
  unfold invalidateSeats redisDel
  exact filter_self_idem _ r

lemma sys_ext {a b : Sys} (h1 : a.seats = b.seats) (h2 : a.bookings = b.bookings)
    (h3 : a.txns = b.txns) (h4 : a.redis = b.redis) : a = b := by
  cases a
  cases b
  simp_all

lemma processSuccessfulPayment_idem (pid : String) (bid eid : Nat) (s : Sys) :
    processSuccessfulPayment pid bid eid (processSuccessfulPayment pid bid eid s) =
      processSuccessfulPayment pid bid eid s := by
  have hfilter :
      ((s.seats.map (markSoldSeat bid)).filter
        (fun st => st.bookingId = some bid ∧ st.status = "RESERVED")) = [] := by
    rw [List.filter_eq_nil_iff]
    intro st hmem
    obtain ⟨st0, _, rfl⟩ := List.mem_map.mp hmem
    simpa using markSoldSeat_not_reserved bid st0
  refine sys_ext ?_ ?_ ?_ ?_
  · show ((s.seats.map (markSoldSeat bid)).map (markSoldSeat bid))
        = s.seats.map (markSoldSeat bid)
    exact map_self_idem _ (markSoldSeat_idem bid) _
  · show ((s.bookings.map (payBooking bid)).map (payBooking bid))
        = s.bookings.map (payBooking bid)
    exact map_self_idem _ (payBooking_idem bid) _
  · show ((s.txns.map (completeTxn pid)).map (completeTxn pid))
        = s.txns.map (completeTxn pid)
    exact map_self_idem _ (completeTxn_idem pid) _
  · show invalidateSeats eid
        (clearRedisReservations
          (((s.seats.map (markSoldSeat bid)).filter
            (fun st => st.bookingId = some bid ∧ st.status = "RESERVED")).map (·.id))
          ((processSuccessfulPayment pid bid eid s).redis))
        = (processSuccessfulPayment pid bid eid s).redis
    rw [hfilter]
    rw [List.map_nil, clearRedisReservations_nil]
    show invalidateSeats eid
        (invalidateSeats eid (clearRedisReservations _ s.redis))
        = invalidateSeats eid (clearRedisReservations _ s.redis)
    exact invalidateSeats_idem eid _

lemma webhookLookup_processSuccessfulPayment (pid : String) (bid eid : Nat) (s : Sys) :
    webhookLookup pid (processSuccessfulPayment pid bid eid s) = webhookLookup pid s := by
  have hpT : ((fun t => decide (t.transactionId = pid)) ∘ completeTxn pid)
      = fun t : PaymentTxn => decide (t.transactionId = pid) := by
    funext t
    simp [Function.comp, completeTxn_transactionId]
  have hT : (s.txns.map (completeTxn pid)).find? (fun t => t.transactionId = pid)
      = (s.txns.find? (fun t => t.transactionId = pid)).map (completeTxn pid) := by
    rw [List.find?_map, hpT]
  have hB : ∀ x : Nat, (s.bookings.map (payBooking bid)).find? (fun b => b.id = x)
      = (s.bookings.find? (fun b => b.id = x)).map (payBooking bid) := by
    intro x
    have hpB : ((fun b => decide (b.id = x)) ∘ payBooking bid)
        = fun b : Booking => decide (b.id = x) := by
      funext b
      simp [Function.comp, payBooking_id]
    rw [List.find?_map, hpB]
  show (match (s.txns.map (completeTxn pid)).find? (fun t => t.transactionId = pid) with
    | none => none
    | some t =>
      match (s.bookings.map (payBooking bid)).find? (fun b => b.id = t.bookingId) with
      | none => none
      | some b => some (b.id, b.eventId))
    = webhookLookup pid s
  rw [hT]
  unfold webhookLookup
  cases hft : s.txns.find? (fun t => t.transactionId = pid) with
  | none => rfl
  | some t =>
    simp only [Option.map_some']
    rw [completeTxn_bookingId, hB t.bookingId]
    cases hfb : s.bookings.find? (fun b => b.id = t.bookingId) with
    | none => rfl
    | some b =>
      simp only [Option.map_some']
      rw [payBooking_id, payBooking_eventId]

/-- C8: replaying a `CONFIRMED` webhook for the same `payment_id` from the
state produced by the first run changes nothing: the transaction stays
`completed`, the booking stays `paid`, the `UPDATE ... WHERE status='RESERVED'`
seat guard matches no row, and the post-commit Redis deletions act on keys that
are already gone.  Stated as idempotence of the state transformer. -/
theorem webhook_confirmed_idempotent (pid : String) (s : Sys) :
    processWebhookNotification pid "CONFIRMED"
      (processWebhookNotification pid "CONFIRMED" s) =
    processWebhookNotification pid "CONFIRMED" s := by
  cases hlk : webhookLookup pid s with
  | none =>
    have hFs : processWebhookNotification pid "CONFIRMED" s = s := by
      unfold processWebhookNotification
      rw [hlk]
    rw [hFs]
    exact hFs
  | some pair =>
    obtain ⟨bid, eid⟩ := pair
    have hFs : processWebhookNotification pid "CONFIRMED" s
        = processSuccessfulPayment pid bid eid s := by
      unfold processWebhookNotification
      rw [hlk]
      dsimp only
      rw [if_pos rfl]
    rw [hFs]
    have hlk2 : webhookLookup pid (processSuccessfulPayment pid bid eid s)
        = some (bid, eid) := by
      rw [webhookLookup_processSuccessfulPayment, hlk]
    unfold processWebhookNotification
    rw [hlk2]
    dsimp only
    rw [if_pos rfl]
    exact processSuccessfulPayment_idem pid bid eid s

end TicketSystem

